import Mathlib

/-!
Shallow embedding of the evaluation core of the Devcode-Agent repository
(eval/metrics and eval/runner), together with theorems checking the
natural-language specification against the embedded code.

Conventions of the embedding:
- Python floats are modelled by the rationals `ℚ`; line numbers by `Int`.
- Python dicts with known keys become Lean structures; a `.get(key, default)`
  access on a possibly-missing key becomes an `Option.getD`.
- Python truthiness of a string is `≠ ""`, of a list `≠ []`, of an int `≠ 0`.
- Python sets of strings are modelled by membership over lists, with a
  dedicated set-equality test `seteq` (order and duplicates irrelevant).
-/

-- ===== eval/metrics/localization.py =====

/-- Embeds `_iou` from eval/metrics/localization.py: intersection length of
two integer line ranges, clamped at 0. -/
def interLen (a b : Int × Int) : Int :=
  max 0 (min a.2 b.2 - max a.1 b.1)

/-- Embeds the union-length expression of `_iou`:
`max(ae-as,0) + max(be-bs,0) - inter`. -/
def unionLen (a b : Int × Int) : Int :=
  max (a.2 - a.1) 0 + max (b.2 - b.1) 0 - interLen a b

/-- Embeds `_iou(a, b)` from eval/metrics/localization.py:
`(inter / union) if union > 0 else 0.0`. -/
def _iou (a b : Int × Int) : ℚ :=
  if 0 < unionLen a b then (interLen a b : ℚ) / (unionLen a b : ℚ) else 0

-- Helper facts about the interval arithmetic, shared by several claims.

lemma interLen_nonneg (a b : Int × Int) : 0 ≤ interLen a b := by
  unfold interLen; omega

lemma interLen_comm (a b : Int × Int) : interLen a b = interLen b a := by
  unfold interLen; omega

lemma unionLen_comm (a b : Int × Int) : unionLen a b = unionLen b a := by
  unfold unionLen; rw [interLen_comm]; omega

lemma interLen_le_unionLen (a b : Int × Int) : interLen a b ≤ unionLen a b := by
  unfold unionLen interLen; omega

lemma unionLen_nonneg (a b : Int × Int) : 0 ≤ unionLen a b := by
  unfold unionLen interLen; omega

lemma iou_comm (a b : Int × Int) : _iou a b = _iou b a := by
  unfold _iou; rw [interLen_comm, unionLen_comm]

lemma iou_nonneg (a b : Int × Int) : 0 ≤ _iou a b := by
  unfold _iou
  split
  · apply div_nonneg
    · exact_mod_cast interLen_nonneg a b
    · exact_mod_cast unionLen_nonneg a b
  · exact le_refl 0

lemma iou_le_one (a b : Int × Int) : _iou a b ≤ 1 := by
  unfold _iou
  split
  · rename_i h
    rw [div_le_one (by exact_mod_cast h)]
    exact_mod_cast interLen_le_unionLen a b
  · exact zero_le_one

/-- Best IoU of one predicted range against a list of golden ranges; embeds
the inner loop of `line_iou_scores` (`best = max(best, _iou(p, g))` starting
from `0.0`). -/
def best_iou (p : Int × Int) (golds : List (Int × Int)) : ℚ :=
  golds.foldl (fun best g => max best (_iou p g)) 0

/-- Result record of `line_iou_scores`. -/
structure IouScores where
  per_pair : List ℚ
  avg : ℚ
  min : ℚ
  deriving Repr, DecidableEq

/-- Python `min(xs)` over a nonempty list, `0.0` for the empty list; embeds
`min(pairs) if pairs else 0.0`. -/
def py_min_list : List ℚ → ℚ
  | [] => 0
  | h :: t => t.foldl min h

/-- Python `sum(xs)/len(xs) if xs else 0.0`; embeds the `avg` expression of
`line_iou_scores`. -/
def py_avg_list (l : List ℚ) : ℚ :=
  if l.length ≠ 0 then l.sum / (l.length : ℚ) else 0

/-- Embeds `line_iou_scores` from eval/metrics/localization.py. -/
def line_iou_scores (pred_line_ranges golden_line_ranges : List (Int × Int)) : IouScores :=
  if pred_line_ranges.isEmpty || golden_line_ranges.isEmpty then ⟨[], 0, 0⟩
  else
    let pairs := pred_line_ranges.map (fun p => best_iou p golden_line_ranges)
    ⟨pairs, py_avg_list pairs, py_min_list pairs⟩

-- Generic facts about left folds of `max` and `min` over rationals.

lemma le_foldl_max (l : List ℚ) (i : ℚ) : i ≤ l.foldl max i := by
  induction l generalizing i with
  | nil => exact le_refl i
  | cons h t ih => exact le_trans (le_max_left i h) (ih (max i h))

lemma foldl_max_le_of_mem (l : List ℚ) (i : ℚ) (x : ℚ) (hx : x ∈ l) :
    x ≤ l.foldl max i := by
  induction l generalizing i with
  | nil => cases hx
  | cons h t ih =>
    rcases List.mem_cons.mp hx with rfl | hm
    · exact le_trans (le_max_right i x) (le_foldl_max t (max i x))
    · exact ih (max i h) hm

lemma foldl_max_cases (l : List ℚ) (i : ℚ) :
    l.foldl max i = i ∨ l.foldl max i ∈ l := by
  induction l generalizing i with
  | nil => exact Or.inl rfl
  | cons h t ih =>
    rcases ih (max i h) with heq | hm
    · rw [List.foldl_cons, heq]
      rcases max_choice i h with hc | hc
      · exact Or.inl hc
      · exact Or.inr (by rw [hc]; exact List.mem_cons_self h t)
    · exact Or.inr (List.mem_cons_of_mem h hm)

lemma foldl_min_le_init (l : List ℚ) (i : ℚ) : l.foldl min i ≤ i := by
  induction l generalizing i with
  | nil => exact le_refl i
  | cons h t ih => exact le_trans (ih (min i h)) (min_le_left i h)

lemma foldl_min_le_of_mem (l : List ℚ) (i : ℚ) (x : ℚ) (hx : x ∈ l) :
    l.foldl min i ≤ x := by
  induction l generalizing i with
  | nil => cases hx
  | cons h t ih =>
    rcases List.mem_cons.mp hx with rfl | hm
    · exact le_trans (foldl_min_le_init t (min i x)) (min_le_right i x)
    · exact ih (min i h) hm

lemma foldl_min_cases (l : List ℚ) (i : ℚ) :
    l.foldl min i = i ∨ l.foldl min i ∈ l := by
  induction l generalizing i with
  | nil => exact Or.inl rfl
  | cons h t ih =>
    rcases ih (min i h) with heq | hm
    · rw [List.foldl_cons, heq]
      rcases min_choice i h with hc | hc
      · exact Or.inl hc
      · exact Or.inr (by rw [hc]; exact List.mem_cons_self h t)
    · exact Or.inr (List.mem_cons_of_mem h hm)

lemma py_min_le_of_mem (l : List ℚ) (x : ℚ) (hx : x ∈ l) : py_min_list l ≤ x := by
  cases l with
  | nil => cases hx
  | cons h t =>
    rcases List.mem_cons.mp hx with rfl | hm
    · exact foldl_min_le_init t x
    · exact foldl_min_le_of_mem t h x hm

lemma py_min_mem (l : List ℚ) (hl : l ≠ []) : py_min_list l ∈ l := by
  cases l with
  | nil => exact absurd rfl hl
  | cons h t =>
    rcases foldl_min_cases t h with heq | hm
    · exact List.mem_cons.mpr (Or.inl heq)
    · exact List.mem_cons_of_mem h hm

lemma best_iou_ge (p : Int × Int) (golds : List (Int × Int)) (g : Int × Int)
    (hg : g ∈ golds) : _iou p g ≤ best_iou p golds := by
  unfold best_iou
  rw [← List.foldl_map (fun g => _iou p g) max golds 0]
  exact foldl_max_le_of_mem _ 0 _ (List.mem_map_of_mem _ hg)

lemma best_iou_attained (p : Int × Int) (golds : List (Int × Int))
    (hg : golds ≠ []) : ∃ g ∈ golds, best_iou p golds = _iou p g := by
  unfold best_iou
  rw [← List.foldl_map (fun g => _iou p g) max golds 0]
  rcases foldl_max_cases (golds.map (fun g => _iou p g)) 0 with heq | hm
  · cases golds with
    | nil => exact absurd rfl hg
    | cons g t =>
      refine ⟨g, List.mem_cons_self g t, le_antisymm ?_ ?_⟩
      · rw [heq]; exact iou_nonneg p g
      · exact foldl_max_le_of_mem _ 0 _
          (List.mem_map_of_mem _ (List.mem_cons_self g t))
  · rcases List.mem_map.mp hm with ⟨g, hgm, hgeq⟩
    exact ⟨g, hgm, hgeq.symm⟩

/-- Embeds `path_match_all_only` from eval/metrics/localization.py:
1 iff the predicted and golden path lists are equal as sets. -/
def seteq (a b : List String) : Bool :=
  a.all (fun x => b.contains x) && b.all (fun x => a.contains x)

/-- Embeds `path_match_all_only`: `1 if set(pred) == set(gold) else 0`. -/
def path_match_all_only (pred_paths golden_paths : List String) : Nat :=
  if seteq pred_paths golden_paths then 1 else 0

-- ===== eval/metrics/faithfulness.py =====

/-- The `answer` dict of a prediction: paths, line ranges, quotes, rationale. -/
structure Answer where
  paths : List String
  line_ranges : List (Int × Int)
  quotes : List String
  rationale : String
  deriving Repr, DecidableEq

/-- A citation record `{path, start, end}`. The `end` key is spelled `end_`
because `end` is reserved in Lean. -/
structure Citation where
  path : String
  start : Int
  end_ : Int
  deriving Repr, DecidableEq

/-- String constant `REASON_OK` of eval/metrics/faithfulness.py. -/
def REASON_OK : String := "ok"

/-- String constant `REASON_CITE_MISSING` of eval/metrics/faithfulness.py. -/
def REASON_CITE_MISSING : String := "cite_missing"

/-- String constant `REASON_CITE_IRRELEVANT` of eval/metrics/faithfulness.py. -/
def REASON_CITE_IRRELEVANT : String := "cite_irrelevant"

/-- String constant `REASON_NO_QUOTES` of eval/metrics/faithfulness.py. -/
def REASON_NO_QUOTES : String := "no_quotes"

/-- Result of `evaluate_faithfulness`: the binary verdict and the reason. -/
structure FaithResult where
  faithful : Nat
  faithfulness_reason : String
  deriving Repr, DecidableEq

/-- Embeds `c_paths = {c.get("path") for c in citations if c.get("path")}`:
the citation paths that are truthy (non-empty). -/
def cite_path_set (citations : List Citation) : List String :=
  (citations.filter (fun c => c.path != "")).map (fun c => c.path)

/-- Embeds `evaluate_faithfulness` from eval/metrics/faithfulness.py. -/
def evaluate_faithfulness (answer : Answer) (citations : List Citation) : FaithResult :=
  if citations.isEmpty then ⟨0, REASON_CITE_MISSING⟩
  else if !answer.paths.isEmpty
      && !(answer.paths.any (fun p => (cite_path_set citations).contains p)) then
    ⟨0, REASON_CITE_IRRELEVANT⟩
  else if answer.quotes.isEmpty then ⟨0, REASON_NO_QUOTES⟩
  else ⟨1, REASON_OK⟩

-- ===== eval/runner/config.py =====

/-- Embeds the `W1Thresholds` dataclass of eval/runner/config.py. -/
structure W1Thresholds where
  path_match_required : Bool
  line_iou_min : ℚ
  require_symbol_match : Bool
  faithfulness_required : Bool
  deriving Repr, DecidableEq

-- ===== eval/runner/run_localization.py =====

/-- The localization score record returned by `evaluate_localization`
(path_match, line_iou_avg, line_iou_min, symbol_match,
symbol_presence_rate). -/
structure LocResult where
  path_match : Nat
  line_iou_avg : ℚ
  line_iou_min : ℚ
  symbol_match : Nat
  symbol_presence_rate : ℚ
  deriving Repr, DecidableEq

/-- Embeds the `passed` computation of `_evaluate_task` in
eval/runner/run_localization.py: `passed` starts at 1 and four sequential
`if` statements may lower it to 0. -/
def evaluate_task_passed (th : W1Thresholds) (loc : LocResult) (faith : FaithResult) : Nat :=
  let passed := 1
  let passed := if th.path_match_required ∧ loc.path_match ≠ 1 then 0 else passed
  let passed := if loc.line_iou_min < th.line_iou_min then 0 else passed
  let passed := if th.require_symbol_match ∧ loc.symbol_match ≠ 1 then 0 else passed
  let passed := if th.faithfulness_required ∧ faith.faithful ≠ 1 then 0 else passed
  passed

/-- An `EvaluationRow` as built by `_run_suite` in
eval/runner/run_localization.py (the fields the aggregations read). -/
structure Row where
  task_id : String
  path_match : Nat
  line_iou_avg : ℚ
  line_iou_min : ℚ
  symbol_match : Nat
  faithful : Nat
  latency_ms : Nat
  tokens_in : Nat
  tokens_out : Nat
  context_tokens : Nat
  passed : Nat
  deriving Repr, DecidableEq

/-- Embeds the `accuracy_localization` entry of the run `summary` dict built
in `main` of eval/runner/run_localization.py:
`sum(1 for r in rows if r.get("passed")) / max(len(rows), 1)`. -/
def summary_accuracy_localization (rows : List Row) : ℚ :=
  ((rows.foldl (fun acc r => if r.passed != 0 then acc + 1 else acc) 0 : Nat) : ℚ)
    / ((max rows.length 1 : Nat) : ℚ)

/-- Embeds the `accuracy` computed by `_print_cli_summary` in
eval/runner/run_localization.py:
`sum(1 for r in rows if r.get("path_match") == 1 and r.get("faithful") == 1)
 / max(len(rows), 1)`. -/
def cli_accuracy (rows : List Row) : ℚ :=
  ((rows.foldl
      (fun acc r => if r.path_match == 1 && r.faithful == 1 then acc + 1 else acc)
      0 : Nat) : ℚ)
    / ((max rows.length 1 : Nat) : ℚ)

lemma foldl_count_eq_countP {α : Type} (p : α → Bool) (l : List α) (n : Nat) :
    l.foldl (fun acc a => if p a then acc + 1 else acc) n = n + l.countP p := by
  induction l generalizing n with
  | nil => simp
  | cons h t ih =>
    rw [List.foldl_cons, List.countP_cons]
    by_cases hp : p h
    · simp only [hp, if_true, ih]
      omega
    · simp only [hp, if_false, ih]
      simp [hp]

-- ===== eval/runner/common.py =====

/-- The `timing` sub-dict of a prediction (only `latency_ms` is read by the
core). -/
structure Timing where
  latency_ms : Nat
  deriving Repr, DecidableEq

/-- The `tokens` sub-dict of a prediction (`in`, `out`, `context`; `in` is
reserved in Lean, hence `tokens_in`/`tokens_out`). -/
structure Tokens where
  tokens_in : Nat
  tokens_out : Nat
  context : Nat
  deriving Repr, DecidableEq

/-- A fully normalized prediction as returned by `call_sut`: downstream code
reads every key through `.get` with a default, so a missing `answer` or
`citations` key behaves exactly like the empty default recorded here. -/
structure Prediction where
  answer : Answer
  citations : List Citation
  error : Option String
  timing : Timing
  tokens : Tokens
  deriving Repr, DecidableEq

/-- A raw SUT response before `_normalize_timing_tokens`: every field may be
absent. -/
structure RawResp where
  answer : Option Answer
  citations : Option (List Citation)
  error : Option String
  latency_ms : Option Nat
  tokens_in : Option Nat
  tokens_out : Option Nat
  context : Option Nat
  deriving Repr, DecidableEq

/-- The empty `answer` dict (`prediction.get("answer", {})`). -/
def empty_answer : Answer := ⟨[], [], [], ""⟩

/-- Embeds `_normalize_timing_tokens` from eval/runner/common.py:
`timing.latency_ms` defaults to the fallback, the three token counts
default to 0; other keys pass through (missing ones read as their empty
defaults downstream). -/
def _normalize_timing_tokens (resp : RawResp) (fallback_latency_ms : Nat) : Prediction :=
  ⟨resp.answer.getD empty_answer,
   resp.citations.getD [],
   resp.error,
   ⟨resp.latency_ms.getD fallback_latency_ms⟩,
   ⟨resp.tokens_in.getD 0, resp.tokens_out.getD 0, resp.context.getD 0⟩⟩

/-- Outcome of one external SUT process invocation: either it timed out
after a measured wall-clock time, or it completed with a parsed response and
a measured latency. -/
inductive SutOutcome where
  | timedOut (elapsed_ms : Nat)
  | completed (resp : RawResp) (latency_ms : Nat)
  deriving Repr, DecidableEq

/-- The all-absent raw response; `{"error": "timeout"}` is this record with
the `error` key set. -/
def timeout_resp : RawResp := ⟨none, none, some "timeout", none, none, none, none⟩

/-- Embeds `call_sut` from eval/runner/common.py as a function of the
process outcome: on `subprocess.TimeoutExpired` it returns
`_normalize_timing_tokens({"error": "timeout"}, int((time.time()-start)*1000))`
(no retry, no exception); otherwise it normalizes the parsed response. -/
def call_sut (o : SutOutcome) : Prediction :=
  match o with
  | SutOutcome.timedOut elapsed_ms => _normalize_timing_tokens timeout_resp elapsed_ms
  | SutOutcome.completed resp latency_ms => _normalize_timing_tokens resp latency_ms

-- ===== eval/metrics/taxonomy.py =====

/-- Substring test on lists (is `needle` a contiguous infix of `hay`). -/
def list_is_sub : List Char → List Char → Bool
  | needle, [] => needle.isEmpty
  | needle, a :: rest => needle.isPrefixOf (a :: rest) || list_is_sub needle rest

/-- Python `needle in hay` on strings. -/
def str_contains (hay needle : String) : Bool :=
  list_is_sub needle.toList hay.toList

/-- Label constants of eval/metrics/taxonomy.py. -/
def LABEL_WRONG_PATH : String := "wrong_path"

/-- Label constant `missing_path`. -/
def LABEL_MISSING_PATH : String := "missing_path"

/-- Label constant `wrong_line`. -/
def LABEL_WRONG_LINE : String := "wrong_line"

/-- Label constant `symbol_absent`. -/
def LABEL_SYMBOL_ABSENT : String := "symbol_absent"

/-- Label constant `cite_missing`. -/
def LABEL_CITE_MISSING : String := "cite_missing"

/-- Label constant `cite_irrelevant`. -/
def LABEL_CITE_IRRELEVANT : String := "cite_irrelevant"

/-- Label constant `vendor_hit`. -/
def LABEL_VENDOR_HIT : String := "vendor_hit"

/-- Label constant `test_instead_of_src`. -/
def LABEL_TEST_INSTEAD_OF_SRC : String := "test_instead_of_src"

/-- Label constant `latency_slo`. -/
def LABEL_LATENCY_SLO : String := "latency_slo"

/-- Label constant `cost_slo`. -/
def LABEL_COST_SLO : String := "cost_slo"

/-- Label constant `ok`. -/
def LABEL_OK : String := "ok"

/-- A golden record (fields read by the localization and change-impact
cores). -/
structure GoldenAnchor where
  path : String
  symbol : String
  deriving Repr, DecidableEq

/-- An `example_quotes` entry `{path, start, end}` of a golden. -/
structure ExampleQuote where
  path : String
  start : Int
  end_ : Int
  deriving Repr, DecidableEq

/-- A golden answer record. Missing optional keys read as empty lists. -/
structure Golden where
  task_id : String
  paths : List String
  line_ranges : List (Int × Int)
  quotes : List String
  required_anchors : List GoldenAnchor
  example_quotes : List ExampleQuote
  forbidden_claims : List String
  deriving Repr, DecidableEq

/-- The thresholds dict handed to `map_labels` by `_evaluate_task`. -/
structure MapThresholds where
  line_iou_min : ℚ
  p95_latency_ms : Nat
  max_tokens_in : Nat
  max_tokens_out : Nat
  max_context_tokens : Nat
  deriving Repr, DecidableEq

/-- The `{primary, secondary}` record produced by the taxonomy classifier. -/
structure Labels where
  primary : String
  secondary : List String
  deriving Repr, DecidableEq

/-- Embeds `map_labels` from eval/metrics/taxonomy.py. The Python idiom
`primary = primary or L` inside an `if` becomes an `Option String` that is
only filled when still `none`. -/
def map_labels (pred : Prediction) (gold : Golden) (localization : LocResult)
    (faithfulness : FaithResult) (thresholds : MapThresholds) : Labels :=
  let ppaths := pred.answer.paths
  let gpaths := gold.paths
  let primary : Option String :=
    if ppaths.isEmpty then some LABEL_MISSING_PATH
    else if ¬gpaths.isEmpty ∧ seteq ppaths gpaths = false then some LABEL_WRONG_PATH
    else none
  let primary : Option String :=
    if localization.line_iou_min < thresholds.line_iou_min then
      some (primary.getD LABEL_WRONG_LINE)
    else primary
  let secondary : List String :=
    (if localization.symbol_match = 0 then [LABEL_SYMBOL_ABSENT] else []) ++
    (if faithfulness.faithfulness_reason = "cite_missing" then [LABEL_CITE_MISSING]
     else if faithfulness.faithfulness_reason = "cite_irrelevant" then [LABEL_CITE_IRRELEVANT]
     else []) ++
    (if ppaths.any (fun p => str_contains p "/vendor/" || str_contains p "third_party")
     then [LABEL_VENDOR_HIT] else []) ++
    (if ppaths.any (fun p => str_contains p "/test" || str_contains p "/tests/")
     then [LABEL_TEST_INSTEAD_OF_SRC] else []) ++
    (if pred.timing.latency_ms ≠ 0 ∧ pred.timing.latency_ms > thresholds.p95_latency_ms
     then [LABEL_LATENCY_SLO] else []) ++
    (if pred.tokens.tokens_in > thresholds.max_tokens_in
        ∨ pred.tokens.tokens_out > thresholds.max_tokens_out
        ∨ pred.tokens.context > thresholds.max_context_tokens
     then [LABEL_COST_SLO] else [])
  let default_primary := if ¬gpaths.isEmpty then LABEL_OK else LABEL_MISSING_PATH
  ⟨primary.getD default_primary, secondary⟩

-- ===== canary gate (assert_canary_gate in run_localization.py) =====

/-- Embeds the per-row `checks` list of `assert_canary_gate`: the names of
the checks that failed for one canary row, in program order. -/
def canary_checks (th : W1Thresholds) (r : Row) : List String :=
  (if th.path_match_required ∧ r.path_match ≠ 1 then ["path_match"] else []) ++
  (if r.line_iou_min < th.line_iou_min then ["line_iou_min"] else []) ++
  (if th.require_symbol_match ∧ r.symbol_match ≠ 1 then ["symbol_match"] else []) ++
  (if th.faithfulness_required ∧ r.faithful ≠ 1 then ["faithful"] else [])

/-- Embeds the failure line `f"{tid}: fail({','.join(checks)})"` appended by
`assert_canary_gate` for a failing canary row. -/
def failure_line (th : W1Thresholds) (r : Row) : String :=
  r.task_id ++ ": fail(" ++ String.intercalate "," (canary_checks th r) ++ ")"

/-- Embeds the `failures` list accumulated by `assert_canary_gate` over the
canary rows. -/
def canary_failures (th : W1Thresholds) (rows : List Row) : List String :=
  rows.filterMap (fun r =>
    if (canary_checks th r).isEmpty then none else some (failure_line th r))

/-- Embeds the exit code of `assert_canary_gate`: 1 iff
`require_100_percent` is set and the failures list is non-empty, else 0. -/
def canary_gate_exit (require_100_percent : Bool) (th : W1Thresholds)
    (rows : List Row) : Nat :=
  if require_100_percent ∧ canary_failures th rows ≠ [] then 1 else 0

-- ===== eval/utils/variants.py =====

/-- The `acceptance_criteria` block of a task card. -/
structure AcceptanceCriteria where
  paths : List String
  line_ranges : List (Int × Int)
  checklist : List String
  deriving Repr, DecidableEq

/-- The `constraints` block of a task card. -/
structure Constraints where
  must_cite : Bool
  exclude_dirs : List String
  deriving Repr, DecidableEq

/-- A task card as produced by `generate_variant_task`; `inputs` holds an
optional `symbol` entry. -/
structure TaskCard where
  id : String
  workflow : String
  input_symbol : Option String
  constraints : Constraints
  acceptance_criteria : AcceptanceCriteria
  tags : List String
  deriving Repr, DecidableEq

/-- A source golden as read by the variant generator: flat JSONL records
with `task_id`, `symbol`, `paths`, `line_ranges`, `quotes`, `checklist` and
a `provenance` dict. -/
structure SourceGolden where
  task_id : String
  symbol : String
  paths : List String
  line_ranges : List (Int × Int)
  quotes : List String
  checklist : List String
  provenance_repo : String
  provenance_commit : String
  deriving Repr, DecidableEq

/-- A variant golden as written by `generate_variant_golden`. -/
structure VariantGolden where
  task_id : String
  paths : List String
  line_ranges : List (Int × Int)
  quotes : List String
  provenance_from_task : String
  provenance_method : String
  provenance_repo : String
  provenance_commit : String
  notes : String
  deriving Repr, DecidableEq

/-- Embeds `generate_variant_task` from eval/utils/variants.py; the string
transformation of the chosen kind is passed as `method_func`, applied only
when the source symbol is truthy. -/
def generate_variant_task (source_golden : SourceGolden) (variant_id : String)
    (kind : String) (method_func : String → String) : TaskCard :=
  let source_symbol := source_golden.symbol
  let modified_symbol := if source_symbol ≠ "" then method_func source_symbol else ""
  let exclude_dirs :=
    if kind = "test" then ["vendor/"]
    else if kind = "vendor" then ["tests/"]
    else ["vendor/", "tests/"]
  ⟨variant_id,
   "w1_localization",
   (if modified_symbol ≠ "" then some modified_symbol else none),
   ⟨true, exclude_dirs⟩,
   ⟨source_golden.paths, source_golden.line_ranges, source_golden.checklist⟩,
   ["variant", kind, "from:" ++ source_golden.task_id]⟩

/-- Embeds `generate_variant_golden` from eval/utils/variants.py ("truth
unchanged"). -/
def generate_variant_golden (source_golden : SourceGolden) (variant_id : String)
    (kind : String) : VariantGolden :=
  ⟨variant_id,
   source_golden.paths,
   source_golden.line_ranges,
   source_golden.quotes,
   source_golden.task_id,
   kind,
   source_golden.provenance_repo,
   source_golden.provenance_commit,
   "Variant derived; truth unchanged"⟩

-- ===== eval/runner/run_change_impact.py =====

/-- Embeds `_anchor_line_iou` from eval/runner/run_change_impact.py: the
`min` aggregate of `line_iou_scores([quote_range], cited_ranges)`. -/
def _anchor_line_iou (cited_ranges : List (Int × Int)) (quote_range : Int × Int) : ℚ :=
  (line_iou_scores [quote_range] cited_ranges).min

/-- Result record of `_deterministic_core`. -/
structure CoreResult where
  faith : FaithResult
  anchors_required : Nat
  anchors_found : Nat
  anchor_coverage : ℚ
  anchors_faithful : Nat
  anchor_faithful_rate : ℚ
  forbidden_hit : Nat
  deriving Repr, DecidableEq

/-- One iteration of the `for req in required` loop of
`_deterministic_core`, threading the `(anchors_found, anchors_faithful)`
counters. -/
def anchor_step (citations : List Citation) (ans : Answer)
    (example_quotes : List ExampleQuote) (line_iou_min : ℚ)
    (acc : Nat × Nat) (req : GoldenAnchor) : Nat × Nat :=
  let cited := citations.filter (fun c => c.path = req.path)
  if cited.isEmpty then acc
  else
    let found := acc.1 + 1
    if req.symbol ≠ "" ∧ ¬(str_contains ans.rationale req.symbol = true) then
      (found, acc.2)
    else
      let examples_for_path := example_quotes.filter (fun q => q.path = req.path)
      let faith_ok := examples_for_path.any (fun ex =>
        cited.any (fun c =>
          line_iou_min ≤ _anchor_line_iou [(c.start, c.end_)] (ex.start, ex.end_)))
      if faith_ok then (found, acc.2 + 1) else (found, acc.2)

/-- Embeds `_deterministic_core` from eval/runner/run_change_impact.py. -/
def _deterministic_core (pred : Prediction) (golden : Golden)
    (line_iou_min : ℚ) : CoreResult :=
  let ans := pred.answer
  let citations := pred.citations
  let faith := evaluate_faithfulness ans citations
  let required := golden.required_anchors
  let counts := required.foldl
    (anchor_step citations ans golden.example_quotes line_iou_min) (0, 0)
  let forbidden := golden.forbidden_claims.any (fun claim =>
    claim != "" && str_contains ans.rationale claim)
  let anchors_required := required.length
  let coverage : ℚ :=
    if anchors_required ≠ 0 then (counts.1 : ℚ) / (anchors_required : ℚ) else 0
  let faith_rate : ℚ :=
    if anchors_required ≠ 0 then (counts.2 : ℚ) / (anchors_required : ℚ) else 0
  ⟨faith, anchors_required, counts.1, coverage, counts.2, faith_rate,
   if forbidden then 1 else 0⟩

/-- Embeds the `faithful_overall` expression of `main` in
eval/runner/run_change_impact.py. -/
def faithful_overall (core : CoreResult) (faithfulness_required : Bool) : Nat :=
  if core.anchor_faithful_rate = 1 ∧ core.forbidden_hit = 0
      ∧ (core.faith.faithful = 1 ∨ ¬(faithfulness_required = true)) then 1 else 0

-- ===== Claim theorems =====

/-- C5: the pairwise IoU `_iou` equals intersection_length / union_length
with the clamped formulas of the source, is 0 when the union length is 0,
is symmetric, lies in [0,1], is 1 for identical non-empty ranges, and is 0
for disjoint ranges. -/
theorem iou_spec (a b : Int × Int) :
    (unionLen a b ≠ 0 → _iou a b = (interLen a b : ℚ) / (unionLen a b : ℚ)) ∧
    (unionLen a b = 0 → _iou a b = 0) ∧
    _iou a b = _iou b a ∧
    0 ≤ _iou a b ∧
    _iou a b ≤ 1 ∧
    (a.1 < a.2 → _iou a a = 1) ∧
    (a.2 ≤ b.1 ∨ b.2 ≤ a.1 → _iou a b = 0) := by
  refine ⟨?_, ?_, iou_comm a b, iou_nonneg a b, iou_le_one a b, ?_, ?_⟩
  · intro h
    have hpos : 0 < unionLen a b := lt_of_le_of_ne (unionLen_nonneg a b) (Ne.symm h)
    unfold _iou
    rw [if_pos hpos]
  · intro h
    unfold _iou
    rw [if_neg (by omega)]
  · intro h
    have hi : interLen a a = a.2 - a.1 := by unfold interLen; omega
    have hu : unionLen a a = a.2 - a.1 := by unfold unionLen interLen; omega
    unfold _iou
    rw [hi, hu, if_pos (by omega)]
    exact div_self (Int.cast_ne_zero.mpr (by omega))
  · intro h
    have hi : interLen a b = 0 := by unfold interLen; omega
    unfold _iou
    rw [hi]
    split
    · simp
    · rfl

/-- C5 witness: the theorem instantiated at identical and at disjoint
concrete ranges. -/
theorem iou_spec_witness :
    _iou ((10 : Int), (20 : Int)) ((10 : Int), (20 : Int)) = 1 ∧
    _iou ((1 : Int), (5 : Int)) ((10 : Int), (15 : Int)) = 0 :=
  ⟨(iou_spec ((10 : Int), (20 : Int)) ((10 : Int), (20 : Int))).2.2.2.2.2.1
      (by norm_num),
   (iou_spec ((1 : Int), (5 : Int)) ((10 : Int), (15 : Int))).2.2.2.2.2.2
      (Or.inl (by norm_num))⟩

/-- C6: `line_iou_scores` takes, per predicted range, the maximum IoU
against any golden range, aggregates those bests as arithmetic mean (`avg`)
and minimum (`min`), and degrades both to 0 whenever either range list is
empty. -/
theorem line_iou_scores_spec (pred gold : List (Int × Int)) :
    ((pred = [] ∨ gold = []) →
      (line_iou_scores pred gold).avg = 0 ∧ (line_iou_scores pred gold).min = 0) ∧
    (pred ≠ [] → gold ≠ [] →
      (line_iou_scores pred gold).per_pair = pred.map (fun p => best_iou p gold) ∧
      (∀ p ∈ pred, ∀ g ∈ gold, _iou p g ≤ best_iou p gold) ∧
      (∀ p ∈ pred, ∃ g ∈ gold, best_iou p gold = _iou p g) ∧
      (line_iou_scores pred gold).avg
        = (pred.map (fun p => best_iou p gold)).sum / (pred.length : ℚ) ∧
      (line_iou_scores pred gold).min ∈ pred.map (fun p => best_iou p gold) ∧
      (∀ q ∈ pred.map (fun p => best_iou p gold),
        (line_iou_scores pred gold).min ≤ q)) := by
  constructor
  · intro h
    rcases h with rfl | rfl
    · simp [line_iou_scores]
    · simp [line_iou_scores]
  · intro hp hg
    have hls : line_iou_scores pred gold =
        ⟨pred.map (fun p => best_iou p gold),
         py_avg_list (pred.map (fun p => best_iou p gold)),
         py_min_list (pred.map (fun p => best_iou p gold))⟩ := by
      unfold line_iou_scores
      rw [if_neg (by simp [List.isEmpty_iff, hp, hg])]
    refine ⟨by rw [hls],
            fun p _ g hg2 => best_iou_ge p gold g hg2,
            fun p _ => best_iou_attained p gold hg, ?_, ?_, ?_⟩
    · rw [hls]
      show py_avg_list (pred.map fun p => best_iou p gold) = _
      unfold py_avg_list
      rw [List.length_map, if_pos (by simp [hp])]
    · rw [hls]
      exact py_min_mem _ (by simp [List.map_eq_nil_iff, hp])
    · intro q hq
      rw [hls]
      exact py_min_le_of_mem _ q hq

/-- C6 witness: the theorem instantiated at an empty predicted list and at
a concrete non-empty pair of lists. -/
theorem line_iou_scores_spec_witness :
    (line_iou_scores [] [((1 : Int), (2 : Int))]).avg = 0 ∧
    (line_iou_scores [((1 : Int), (5 : Int))] [((1 : Int), (5 : Int))]).per_pair
      = [best_iou ((1 : Int), (5 : Int)) [((1 : Int), (5 : Int))]] :=
  ⟨((line_iou_scores_spec [] [((1 : Int), (2 : Int))]).1 (Or.inl rfl)).1,
   ((line_iou_scores_spec [((1 : Int), (5 : Int))] [((1 : Int), (5 : Int))]).2
      (List.cons_ne_nil _ _) (List.cons_ne_nil _ _)).1⟩

/-- C1 counterexample: with every "required" flag of `W1Thresholds` turned
off, `_evaluate_task` can still set `passed` to 0, because the minimum
line-IoU check is applied unconditionally; so it is false that a check not
flagged required cannot set passed to 0. -/
theorem evaluate_task_passed_counterexample :
    ¬ (∀ (th : W1Thresholds) (loc : LocResult) (faith : FaithResult),
        th.path_match_required = false → th.require_symbol_match = false →
        th.faithfulness_required = false →
        evaluate_task_passed th loc faith = 1) := by
  intro h
  have h1 := h ⟨false, 6/10, false, false⟩ ⟨1, 0, 0, 1, 1⟩ ⟨1, REASON_OK⟩ rfl rfl rfl
  have h0 : evaluate_task_passed ⟨false, 6/10, false, false⟩ ⟨1, 0, 0, 1, 1⟩
      ⟨1, REASON_OK⟩ = 0 := by
    unfold evaluate_task_passed
    norm_num
  exact absurd (h0.symm.trans h1) (by norm_num)

set_option maxHeartbeats 1000000 in
/-- C1 (amended): per-task `passed` is the AND of four checks, where the
path-match, symbol-match and faithfulness checks are each gated by their
own required flag, while the minimum line-IoU check is applied
unconditionally against the numeric threshold. -/
theorem evaluate_task_passed_spec (th : W1Thresholds) (loc : LocResult)
    (faith : FaithResult) :
    evaluate_task_passed th loc faith =
      if (th.path_match_required = true → loc.path_match = 1)
          ∧ ¬(loc.line_iou_min < th.line_iou_min)
          ∧ (th.require_symbol_match = true → loc.symbol_match = 1)
          ∧ (th.faithfulness_required = true → faith.faithful = 1)
        then 1 else 0 := by
  unfold evaluate_task_passed
  split_ifs <;> tauto

/-- C2 counterexample: for a row with `path_match = 1`, `faithful = 1` but
`passed = 0` (e.g. line IoU below threshold), the run summary's accuracy
field differs from the fraction of rows with path_match == 1 and
faithful == 1. -/
def c2_row : Row := ⟨"T1", 1, 1, 1, 1, 1, 100, 10, 10, 10, 0⟩

/-- C2 counterexample theorem: the persisted summary accuracy is 0 on this
one-row run while the path-and-faithful fraction is 1. -/
theorem run_summary_accuracy_counterexample :
    summary_accuracy_localization [c2_row]
      ≠ (([c2_row].countP (fun r => r.path_match == 1 && r.faithful == 1) : Nat) : ℚ)
          / (([c2_row].length : Nat) : ℚ) := by
  unfold summary_accuracy_localization c2_row
  norm_num [List.countP, List.countP.go]

/-- C2 (amended): the persisted run summary's `accuracy_localization` is
the fraction of rows whose `passed` field is truthy, while the fraction of
rows with `path_match == 1` and `faithful == 1` is the accuracy printed by
`_print_cli_summary`. -/
theorem run_summary_accuracy_spec (rows : List Row) :
    summary_accuracy_localization rows
      = ((rows.countP (fun r => r.passed != 0) : Nat) : ℚ)
          / ((max rows.length 1 : Nat) : ℚ)
    ∧ cli_accuracy rows
      = ((rows.countP (fun r => r.path_match == 1 && r.faithful == 1) : Nat) : ℚ)
          / ((max rows.length 1 : Nat) : ℚ) := by
  constructor
  · unfold summary_accuracy_localization
    rw [foldl_count_eq_countP]
    norm_num
  · unfold cli_accuracy
    rw [foldl_count_eq_countP]
    norm_num

/-- C3 counterexample: the prediction synthesized for a timed-out
invocation carries the measured elapsed milliseconds as its latency, not a
zero-valued timing field. -/
theorem timeout_prediction_counterexample :
    (call_sut (SutOutcome.timedOut 60000)).timing.latency_ms = 60000 ∧
    ¬((call_sut (SutOutcome.timedOut 60000)).timing.latency_ms = 0) :=
  ⟨rfl, by decide⟩

/-- C3 (amended): a timed-out invocation yields a completed prediction with
an `error: timeout` body, empty answer and citations, zero-valued token
fields, and a latency equal to the measured elapsed milliseconds; the run
maps every outcome (timeouts included) to exactly one prediction, with no
retry and no abort. -/
theorem timeout_prediction_spec (elapsed_ms : Nat) (outcomes : List SutOutcome) :
    (call_sut (SutOutcome.timedOut elapsed_ms)).error = some "timeout" ∧
    (call_sut (SutOutcome.timedOut elapsed_ms)).answer = empty_answer ∧
    (call_sut (SutOutcome.timedOut elapsed_ms)).citations = [] ∧
    (call_sut (SutOutcome.timedOut elapsed_ms)).tokens = ⟨0, 0, 0⟩ ∧
    (call_sut (SutOutcome.timedOut elapsed_ms)).timing.latency_ms = elapsed_ms ∧
    (outcomes.map call_sut).length = outcomes.length :=
  ⟨rfl, rfl, rfl, rfl, rfl, List.length_map _ _⟩

/-- C4: `evaluate_faithfulness` returns the first applicable reason in
strict order (no citations gives cite_missing; asserted paths with no
overlap into the citation path set gives cite_irrelevant; no quotes gives
no_quotes; otherwise ok), and `faithful = 1` exactly when the reason is
`ok`. -/
theorem evaluate_faithfulness_spec (a : Answer) (cs : List Citation) :
    (cs = [] → evaluate_faithfulness a cs = ⟨0, REASON_CITE_MISSING⟩) ∧
    (cs ≠ [] → a.paths ≠ [] → (∀ p ∈ a.paths, p ∉ cite_path_set cs) →
      evaluate_faithfulness a cs = ⟨0, REASON_CITE_IRRELEVANT⟩) ∧
    (cs ≠ [] → (a.paths = [] ∨ ∃ p ∈ a.paths, p ∈ cite_path_set cs) →
      a.quotes = [] → evaluate_faithfulness a cs = ⟨0, REASON_NO_QUOTES⟩) ∧
    (cs ≠ [] → (a.paths = [] ∨ ∃ p ∈ a.paths, p ∈ cite_path_set cs) →
      a.quotes ≠ [] → evaluate_faithfulness a cs = ⟨1, REASON_OK⟩) ∧
    ((evaluate_faithfulness a cs).faithful = 1 ↔
      (evaluate_faithfulness a cs).faithfulness_reason = REASON_OK) := by
  have hbranch2 : ∀ (hover : a.paths = [] ∨ ∃ p ∈ a.paths, p ∈ cite_path_set cs),
      (!a.paths.isEmpty
        && !(a.paths.any (fun p => (cite_path_set cs).contains p))) = false := by
    intro hover
    rcases hover with hp0 | ⟨p, hp, hm⟩
    · simp [hp0]
    · have hany : (a.paths.any (fun p => (cite_path_set cs).contains p)) = true :=
        List.any_eq_true.mpr ⟨p, hp, by simp [hm]⟩
      rw [hany]
      simp
  refine ⟨?_, ?_, ?_, ?_, ?_⟩
  · intro h
    subst h
    rfl
  · intro hcs hpaths hnone
    have h1 : cs.isEmpty = false := by simp [List.isEmpty_iff, hcs]
    have ha : (a.paths.any (fun p => (cite_path_set cs).contains p)) = false := by
      simp only [List.any_eq_false]
      intro p hp
      simp [hnone p hp]
    have h2 : (!a.paths.isEmpty
        && !(a.paths.any (fun p => (cite_path_set cs).contains p))) = true := by
      rw [Bool.and_eq_true, Bool.not_eq_true', Bool.not_eq_true']
      exact ⟨by simp [List.isEmpty_iff, hpaths], ha⟩
    unfold evaluate_faithfulness
    rw [if_neg (by rw [h1]; exact Bool.false_ne_true), if_pos h2]
  · intro hcs hover hq
    have h1 : cs.isEmpty = false := by simp [List.isEmpty_iff, hcs]
    have h2 := hbranch2 hover
    unfold evaluate_faithfulness
    rw [if_neg (by rw [h1]; exact Bool.false_ne_true),
        if_neg (by rw [h2]; exact Bool.false_ne_true),
        if_pos (by simp [hq])]
  · intro hcs hover hq
    have h1 : cs.isEmpty = false := by simp [List.isEmpty_iff, hcs]
    have h2 := hbranch2 hover
    have h3 : a.quotes.isEmpty = false := by simp [List.isEmpty_iff, hq]
    unfold evaluate_faithfulness
    rw [if_neg (by rw [h1]; exact Bool.false_ne_true),
        if_neg (by rw [h2]; exact Bool.false_ne_true),
        if_neg (by rw [h3]; exact Bool.false_ne_true)]
  · unfold evaluate_faithfulness
    split_ifs <;> decide

/-- C4 witness: the theorem instantiated at an answer with paths and quotes
but no citations at all, which must give cite_missing. -/
theorem evaluate_faithfulness_spec_witness :
    evaluate_faithfulness ⟨["x.c"], [], ["q"], ""⟩ [] = ⟨0, REASON_CITE_MISSING⟩ :=
  (evaluate_faithfulness_spec ⟨["x.c"], [], ["q"], ""⟩ []).1 rfl

set_option maxHeartbeats 1000000 in
/-- C7: the primary label of `map_labels` is the first true rule of the
ordered chain (no predicted paths gives missing_path; golden paths present
and predicted set differing gives wrong_path; minimum IoU below threshold
gives wrong_line; default ok if the golden has paths, else missing_path);
a later condition that also fires never changes an earlier primary. -/
theorem map_labels_primary_spec (pred : Prediction) (gold : Golden)
    (loc : LocResult) (faith : FaithResult) (th : MapThresholds) :
    (map_labels pred gold loc faith th).primary =
      if pred.answer.paths.isEmpty then LABEL_MISSING_PATH
      else if ¬gold.paths.isEmpty ∧ seteq pred.answer.paths gold.paths = false then
        LABEL_WRONG_PATH
      else if loc.line_iou_min < th.line_iou_min then LABEL_WRONG_LINE
      else if ¬gold.paths.isEmpty then LABEL_OK
      else LABEL_MISSING_PATH := by
  unfold map_labels
  dsimp only
  split_ifs <;> rfl

/-- C9: variant generation preserves the ground truth — the variant
golden's paths, line ranges and quotes equal the source golden's, and the
variant task's acceptance criteria equal the source golden's paths, line
ranges and checklist; only the stimulus changes. -/
theorem variant_truth_preserved (g : SourceGolden) (variant_id kind : String)
    (method_func : String → String) :
    (generate_variant_golden g variant_id kind).paths = g.paths ∧
    (generate_variant_golden g variant_id kind).line_ranges = g.line_ranges ∧
    (generate_variant_golden g variant_id kind).quotes = g.quotes ∧
    (generate_variant_task g variant_id kind method_func).acceptance_criteria.paths
      = g.paths ∧
    (generate_variant_task g variant_id kind method_func).acceptance_criteria.line_ranges
      = g.line_ranges ∧
    (generate_variant_task g variant_id kind method_func).acceptance_criteria.checklist
      = g.checklist :=
  ⟨rfl, rfl, rfl, rfl, rfl, rfl⟩

/-- C10: in the change-impact core, a golden with zero required anchors
yields `anchor_coverage = 0` and `anchor_faithful_rate = 0` (not 1), so the
per-task `faithful_overall` verdict is 0: such a task can never be judged
faithful overall. -/
theorem no_anchors_never_faithful (pred : Prediction) (golden : Golden)
    (line_iou_min : ℚ) (faithfulness_required : Bool)
    (h : golden.required_anchors = []) :
    (_deterministic_core pred golden line_iou_min).anchor_coverage = 0 ∧
    (_deterministic_core pred golden line_iou_min).anchor_faithful_rate = 0 ∧
    faithful_overall (_deterministic_core pred golden line_iou_min)
      faithfulness_required = 0 := by
  unfold _deterministic_core faithful_overall
  rw [h]
  norm_num

/-- C10 witness: concrete change-impact inputs with an anchor-free golden. -/
def c10_golden : Golden := ⟨"T", [], [], [], [], [], []⟩

/-- C10 witness prediction. -/
def c10_pred : Prediction := ⟨empty_answer, [], none, ⟨0⟩, ⟨0, 0, 0⟩⟩

/-- C10 witness theorem: the theorem applied to the concrete inputs. -/
theorem no_anchors_never_faithful_witness :
    (_deterministic_core c10_pred c10_golden 1).anchor_faithful_rate = 0 ∧
    faithful_overall (_deterministic_core c10_pred c10_golden 1) true = 0 :=
  ⟨(no_anchors_never_faithful c10_pred c10_golden 1 true rfl).2.1,
   (no_anchors_never_faithful c10_pred c10_golden 1 true rfl).2.2⟩

set_option maxHeartbeats 1000000 in
/-- C8: each canary row is independently checked (path match when required,
minimum line IoU always against the threshold, symbol match when required,
faithfulness when required); a row fails iff some check fired; with
require-100-percent enabled the gate exits non-zero exactly when at least
one canary row fails; and the reported failure lines are exactly the
failing task ids, each with the names of its failed checks. -/
theorem canary_gate_spec (th : W1Thresholds) (require_100_percent : Bool)
    (rows : List Row) :
    (∀ r ∈ rows,
      (("path_match" ∈ canary_checks th r) ↔
        (th.path_match_required = true ∧ r.path_match ≠ 1)) ∧
      (("line_iou_min" ∈ canary_checks th r) ↔ r.line_iou_min < th.line_iou_min) ∧
      (("symbol_match" ∈ canary_checks th r) ↔
        (th.require_symbol_match = true ∧ r.symbol_match ≠ 1)) ∧
      (("faithful" ∈ canary_checks th r) ↔
        (th.faithfulness_required = true ∧ r.faithful ≠ 1)) ∧
      (canary_checks th r ≠ [] ↔
        ((th.path_match_required = true ∧ r.path_match ≠ 1)
          ∨ r.line_iou_min < th.line_iou_min
          ∨ (th.require_symbol_match = true ∧ r.symbol_match ≠ 1)
          ∨ (th.faithfulness_required = true ∧ r.faithful ≠ 1)))) ∧
    (require_100_percent = true →
      (canary_gate_exit require_100_percent th rows = 1 ↔
        ∃ r ∈ rows, canary_checks th r ≠ [])) ∧
    (∀ r ∈ rows, canary_checks th r ≠ [] →
      failure_line th r ∈ canary_failures th rows) ∧
    (∀ s ∈ canary_failures th rows,
      ∃ r ∈ rows, canary_checks th r ≠ [] ∧ s = failure_line th r) := by
  refine ⟨?_, ?_, ?_, ?_⟩
  · intro r _
    unfold canary_checks
    split_ifs <;> simp_all
  · intro hreq
    subst hreq
    unfold canary_gate_exit
    constructor
    · intro h1
      by_contra hno
      push_neg at hno
      have hf : canary_failures th rows = [] := by
        unfold canary_failures
        rw [List.filterMap_eq_nil_iff]
        intro r hr
        rw [if_pos (by simp [List.isEmpty_iff, hno r hr])]
      rw [if_neg (by simp [hf])] at h1
      exact absurd h1 (by norm_num)
    · rintro ⟨r, hr, hne⟩
      have hf : canary_failures th rows ≠ [] := by
        intro hf0
        have h2 := List.filterMap_eq_nil_iff.mp hf0 r hr
        rw [if_neg (by simp [List.isEmpty_iff, hne])] at h2
        cases h2
      rw [if_pos ⟨rfl, hf⟩]
  · intro r hr hne
    unfold canary_failures
    refine List.mem_filterMap.mpr ⟨r, hr, ?_⟩
    rw [if_neg (by simp [List.isEmpty_iff, hne])]
  · intro s hs
    rcases List.mem_filterMap.mp hs with ⟨r, hr, heq⟩
    by_cases hc : (canary_checks th r).isEmpty
    · rw [if_pos hc] at heq
      cases heq
    · rw [if_neg hc] at heq
      refine ⟨r, hr, ?_, ?_⟩
      · intro h0
        exact hc (by simp [h0])
      · exact (Option.some_inj.mp heq).symm

/-- C8 witness: a canary row that fails every check. -/
def c8_row : Row := ⟨"C1", 0, 0, 0, 0, 0, 0, 0, 0, 0, 0⟩

/-- C8 witness theorem: with require-100-percent on and one failing canary
row, the gate exits 1. -/
theorem canary_gate_spec_witness :
    canary_gate_exit true ⟨true, 1, true, true⟩ [c8_row] = 1 := by
  have h := (canary_gate_spec ⟨true, 1, true, true⟩ true [c8_row]).2.1 rfl
  refine h.mpr ⟨c8_row, List.mem_cons_self _ _, ?_⟩
  have hm : ("path_match" : String) ∈ canary_checks ⟨true, 1, true, true⟩ c8_row := by
    unfold canary_checks c8_row
    simp
  intro h0
  rw [h0] at hm
  cases hm
